import Mathlib

/-!
Shallow embedding of the configuration builder (src/types/config.go) and of the
gRPC connection bootstrap (src/client/grpc_client.go) of the core-sdk-go
repository, together with theorems settling the specification claims.

Modelling conventions: Go machine integers become natural numbers, Go float64
becomes an explicit float model (`GoFloat`: exact rational finite values plus
the infinities and NaN, with IEEE ordered comparisons), Go interface values
that may be nil become `Option` values, Go errors become their message strings,
and fallible Go functions return `Except`.  Types and helpers the two source files import from elsewhere
in the repository (coins, the bech32 prefix record, the stores) are modelled
from the spec and are marked as such on their doc comments.
-/

/-- Go error values, modelled by their message strings. -/
abbrev GoError := String

/-- Modelled from the spec: `BroadcastMode` (defined outside src/) is a string
enumeration over the broadcast policies sync, async and block-commit. -/
abbrev BroadcastMode := String

/-- Modelled from the spec: the `Sync` broadcast-mode constant (defined outside src/). -/
def Sync : BroadcastMode := "sync"

/-- Modelled from the spec: one decimal-denomination coin (type defined outside
src/); the decimal amount is modelled as a rational number. -/
structure DecCoin where
  denom : String
  amount : ℚ
deriving DecidableEq, Repr

/-- Modelled from the spec: `DecCoins` (defined outside src/) is a list of coins.
A nil Go slice and an empty Go slice are both modelled by the empty list. -/
abbrev DecCoins := List DecCoin

/-- Modelled from the spec: a canonical coin denomination; modelled as a
non-empty denomination string. -/
def validDenom (d : String) : Bool := !(d == "")

/-- Modelled from the spec: semantic validity of a coin amount (checker defined
outside src/): every denomination canonical and every amount positive. -/
def DecCoins.IsValid (fee : DecCoins) : Bool :=
  fee.all fun c => validDenom c.denom && decide ((0 : ℚ) < c.amount)

/-- Modelled from the spec: `ParseDecCoins` (defined outside src/), restricted to
the shape of the constant default fee string: a run of digits followed by a
denomination parses to a single coin, anything else to no coins. -/
def ParseDecCoins (s : String) : DecCoins :=
  let cs := s.toList
  let digits := cs.takeWhile Char.isDigit
  let denom := cs.dropWhile Char.isDigit
  if digits = [] ∨ denom = [] then []
  else [⟨String.mk denom, (digits.foldl (fun n c => 10 * n + (c.toNat - 48)) 0 : ℕ)⟩]

/-- Go float64, modelled as exact rational finite values plus the special
values: the infinities and NaN.  The NaN case matters: Go evaluates every
ordered comparison involving NaN to false, so a NaN gas adjustment passes the
non-positivity guard of `GasAdjustmentOption` unreplaced. -/
inductive GoFloat where
  | finite (q : ℚ)
  | inf
  | negInf
  | nan
deriving DecidableEq, Repr

/-- IEEE ordered less-or-equal as Go evaluates it on float64: any comparison
involving NaN is false; negative infinity is below and positive infinity above
every finite value. -/
def GoFloat.le : GoFloat → GoFloat → Bool
  | GoFloat.nan, _ => false
  | _, GoFloat.nan => false
  | GoFloat.negInf, _ => true
  | GoFloat.finite _, GoFloat.inf => true
  | GoFloat.finite a, GoFloat.finite b => decide (a ≤ b)
  | GoFloat.finite _, GoFloat.negInf => false
  | GoFloat.inf, GoFloat.inf => true
  | GoFloat.inf, _ => false

/-- IEEE ordered strict less-than as Go evaluates it on float64: any comparison
involving NaN is false. -/
def GoFloat.lt : GoFloat → GoFloat → Bool
  | GoFloat.nan, _ => false
  | _, GoFloat.nan => false
  | GoFloat.negInf, GoFloat.negInf => false
  | GoFloat.negInf, _ => true
  | GoFloat.finite _, GoFloat.inf => true
  | GoFloat.finite a, GoFloat.finite b => decide (a < b)
  | GoFloat.finite _, GoFloat.negInf => false
  | GoFloat.inf, _ => false

/-- Modelled from the spec: a key-store capability handle (`store.KeyDAO`,
defined outside src/): either the default on-disk leveldb store at some path, or
a caller-supplied store. -/
inductive KeyDAO where
  | levelDB (path : String)
  | custom (id : ℕ)
deriving DecidableEq, Repr

/-- Modelled from the spec: `os.ExpandEnv` path expansion, modelled as the
identity; no claim depends on the expanded path text. -/
def expandEnv (s : String) : String := s

/-- Modelled from the spec: `store.NewLevelDB` (defined outside src/) constructs
the default on-disk store; modelled as always succeeding, so the embedded
builder has no store-construction failure path. -/
def NewLevelDB (path : String) : KeyDAO := KeyDAO.levelDB path

/-- Modelled from the spec: a token-manager capability handle (defined outside
src/); `defaultTokenManager` is the built-in implementation `DefaultTokenManager`. -/
inductive TokenManager where
  | defaultTokenManager
  | custom (id : ℕ)
deriving DecidableEq, Repr

/-- Modelled from the spec: a key-manager capability handle (`crypto.KeyManager`,
defined outside src/); opaque to this core. -/
structure KeyManager where
  id : ℕ
deriving DecidableEq, Repr

/-- Modelled from the spec: the six-field bech32 address-prefix record (type
defined outside src/), with the field names used by src/types/config.go. -/
structure AddrPrefixCfg where
  AccountAddr : String
  AccountPub : String
  ValidatorAddr : String
  ValidatorPub : String
  ConsensusAddr : String
  ConsensusPub : String
deriving DecidableEq, Repr

/-- Modelled from the spec: the built-in default bech32 prefix record
`PrefixCfg` (defined outside src/); the claims only need it to be one fixed,
fully populated record. -/
def PrefixCfg : AddrPrefixCfg :=
  { AccountAddr := "iaa", AccountPub := "iap", ValidatorAddr := "iva",
    ValidatorPub := "ivp", ConsensusAddr := "ica", ConsensusPub := "icp" }

/-- The BSN project identity record (src/types/config.go). -/
structure BSNProjectInfo where
  ProjectId : String
  ProjectKey : String
  ChainAccountAddress : String
deriving DecidableEq, Repr

/-- Constant defaults of src/types/config.go. -/
def defaultGas : ℕ := 200000

def defaultFees : String := "4iris"

def defaultTimeout : ℕ := 5

def defaultLevel : String := "info"

def defaultMaxTxsBytes : ℕ := 1073741824

def defaultAlgo : String := "secp256k1"

def defaultMode : BroadcastMode := Sync

def defaultPath : String := "$HOME/irishub-sdk-go/leveldb"

def defaultGasAdjustment : GoFloat := GoFloat.finite 1

def defaultTxSizeLimit : ℕ := 1048576

/-- The full BIP44 derivation path constant of src/types/config.go
(the string 44'/118'/0'/0/0, apostrophes written as hex escapes). -/
def FullPath : String := "44\x27/118\x27/0\x27/0/0"

/-- The client configuration record (src/types/config.go).  Interface-typed Go
fields that may be nil are modelled with `Option`; the `float64` field is
modelled as `GoFloat`; the field Go names `Bech32AddressPrefix` is named
`Bech32AddressPrefixes` here. -/
structure ClientConfig where
  NodeURI : String
  GRPCAddr : String
  ChainID : String
  Gas : ℕ
  Fee : DecCoins
  KeyDAO : Option KeyDAO
  Algo : String
  Mode : BroadcastMode
  Timeout : ℕ
  Level : String
  MaxTxBytes : ℕ
  GasAdjustment : GoFloat
  Cached : Bool
  TokenManager : Option TokenManager
  KeyManager : Option KeyManager
  TxSizeLimit : ℕ
  Bech32AddressPrefixes : AddrPrefixCfg
  BIP44Path : String
  BSNProject : BSNProjectInfo
deriving DecidableEq, Repr

/-- The Go zero value of `ClientConfig`, returned alongside every construction
error by `NewClientConfig`. -/
def zeroClientConfig : ClientConfig :=
  { NodeURI := "", GRPCAddr := "", ChainID := "", Gas := 0, Fee := [], KeyDAO := none,
    Algo := "", Mode := "", Timeout := 0, Level := "", MaxTxBytes := 0, GasAdjustment := GoFloat.finite 0,
    Cached := false, TokenManager := none, KeyManager := none, TxSizeLimit := 0,
    Bech32AddressPrefixes := { AccountAddr := "", AccountPub := "", ValidatorAddr := "", ValidatorPub := "", ConsensusAddr := "", ConsensusPub := "" },
    BIP44Path := "",
    BSNProject := { ProjectId := "", ProjectKey := "", ChainAccountAddress := "" } }

/-- Field logic of `GasOption` (src/types/config.go): non-positive gas is
replaced by the default. -/
def gasOrDefault (gas : ℕ) : ℕ := if gas ≤ 0 then defaultGas else gas

/-- Field logic of `FeeOption` (src/types/config.go): a nil, empty or invalid
fee is wholesale replaced by the parsed default fee string. -/
def feeOrDefault (fee : DecCoins) : DecCoins :=
  if fee = [] ∨ DecCoins.IsValid fee = false then ParseDecCoins defaultFees else fee

/-- Field logic of `AlgoOption` (src/types/config.go). -/
def algoOrDefault (algo : String) : String := if algo = "" then defaultAlgo else algo

/-- Field logic of `KeyDAOOption` (src/types/config.go): a nil store is replaced
by the default on-disk leveldb store at the environment-expanded default path. -/
def daoOrDefault (dao : Option KeyDAO) : KeyDAO :=
  match dao with
  | none => NewLevelDB (expandEnv defaultPath)
  | some d => d

/-- Field logic of `ModeOption` (src/types/config.go). -/
def modeOrDefault (mode : BroadcastMode) : BroadcastMode := if mode = "" then defaultMode else mode

/-- Field logic of `TimeoutOption` (src/types/config.go). -/
def timeoutOrDefault (t : ℕ) : ℕ := if t ≤ 0 then defaultTimeout else t

/-- Field logic of `LevelOption` (src/types/config.go). -/
def levelOrDefault (level : String) : String := if level = "" then defaultLevel else level

/-- Field logic of `MaxTxBytesOption` (src/types/config.go). -/
def maxTxBytesOrDefault (m : ℕ) : ℕ := if m ≤ 0 then defaultMaxTxsBytes else m

/-- Field logic of `GasAdjustmentOption` (src/types/config.go): the Go guard is
`gasAdjustment <= 0` under IEEE ordered comparison, so a non-positive value is
replaced by the default while a NaN — for which both the comparison with zero
and positivity are false — passes through unreplaced. -/
def gasAdjustmentOrDefault (g : GoFloat) : GoFloat :=
  if GoFloat.le g (GoFloat.finite 0) then defaultGasAdjustment else g

/-- Field logic of `TokenManagerOption` (src/types/config.go). -/
def tokenManagerOrDefault (tm : Option TokenManager) : TokenManager :=
  match tm with
  | none => TokenManager.defaultTokenManager
  | some t => t

/-- Field logic of `TxSizeLimitOption` (src/types/config.go). -/
def txSizeLimitOrDefault (s : ℕ) : ℕ := if s ≤ 0 then defaultTxSizeLimit else s

/-- Field logic of `Bech32AddressPrefixOption` (src/types/config.go): the whole
record is replaced by the built-in default when the address triple is incomplete,
and again when the (possibly already replaced) record has an incomplete pubkey
triple. -/
def addrPrefixOrDefault (p : AddrPrefixCfg) : AddrPrefixCfg :=
  let p1 := if p.AccountAddr = "" ∨ p.ValidatorAddr = "" ∨ p.ConsensusAddr = "" then PrefixCfg else p
  if p1.AccountPub = "" ∨ p1.ValidatorPub = "" ∨ p1.ConsensusPub = "" then PrefixCfg else p1

/-- Field logic of `BIP44PathOption` (src/types/config.go). -/
def bip44PathOrDefault (p : String) : String := if p = "" then FullPath else p

/-- `FeeOption` (src/types/config.go). -/
def FeeOption (fee : DecCoins) (cfg : ClientConfig) : Except GoError ClientConfig :=
  Except.ok { cfg with Fee := feeOrDefault fee }

/-- `KeyDAOOption` (src/types/config.go); it can only fail through
`store.NewLevelDB`, which this model treats as always succeeding. -/
def KeyDAOOption (dao : Option KeyDAO) (cfg : ClientConfig) : Except GoError ClientConfig :=
  Except.ok { cfg with KeyDAO := some (daoOrDefault dao) }

/-- `GasOption` (src/types/config.go). -/
def GasOption (gas : ℕ) (cfg : ClientConfig) : Except GoError ClientConfig :=
  Except.ok { cfg with Gas := gasOrDefault gas }

/-- `AlgoOption` (src/types/config.go). -/
def AlgoOption (algo : String) (cfg : ClientConfig) : Except GoError ClientConfig :=
  Except.ok { cfg with Algo := algoOrDefault algo }

/-- `ModeOption` (src/types/config.go). -/
def ModeOption (mode : BroadcastMode) (cfg : ClientConfig) : Except GoError ClientConfig :=
  Except.ok { cfg with Mode := modeOrDefault mode }

/-- `TimeoutOption` (src/types/config.go). -/
def TimeoutOption (t : ℕ) (cfg : ClientConfig) : Except GoError ClientConfig :=
  Except.ok { cfg with Timeout := timeoutOrDefault t }

/-- `LevelOption` (src/types/config.go). -/
def LevelOption (level : String) (cfg : ClientConfig) : Except GoError ClientConfig :=
  Except.ok { cfg with Level := levelOrDefault level }

/-- `MaxTxBytesOption` (src/types/config.go). -/
def MaxTxBytesOption (m : ℕ) (cfg : ClientConfig) : Except GoError ClientConfig :=
  Except.ok { cfg with MaxTxBytes := maxTxBytesOrDefault m }

/-- `GasAdjustmentOption` (src/types/config.go). -/
def GasAdjustmentOption (g : GoFloat) (cfg : ClientConfig) : Except GoError ClientConfig :=
  Except.ok { cfg with GasAdjustment := gasAdjustmentOrDefault g }

/-- `CachedOption` (src/types/config.go): no default substitution. -/
def CachedOption (b : Bool) (cfg : ClientConfig) : Except GoError ClientConfig :=
  Except.ok { cfg with Cached := b }

/-- `TokenManagerOption` (src/types/config.go). -/
def TokenManagerOption (tm : Option TokenManager) (cfg : ClientConfig) : Except GoError ClientConfig :=
  Except.ok { cfg with TokenManager := some (tokenManagerOrDefault tm) }

/-- `TxSizeLimitOption` (src/types/config.go). -/
def TxSizeLimitOption (s : ℕ) (cfg : ClientConfig) : Except GoError ClientConfig :=
  Except.ok { cfg with TxSizeLimit := txSizeLimitOrDefault s }

/-- `KeyManagerOption` (src/types/config.go): no default, the value is copied. -/
def KeyManagerOption (km : Option KeyManager) (cfg : ClientConfig) : Except GoError ClientConfig :=
  Except.ok { cfg with KeyManager := km }

/-- `Bech32AddressPrefixOption` (src/types/config.go). -/
def Bech32AddressPrefixOption (p : AddrPrefixCfg) (cfg : ClientConfig) : Except GoError ClientConfig :=
  Except.ok { cfg with Bech32AddressPrefixes := addrPrefixOrDefault p }

/-- `BIP44PathOption` (src/types/config.go). -/
def BIP44PathOption (p : String) (cfg : ClientConfig) : Except GoError ClientConfig :=
  Except.ok { cfg with BIP44Path := bip44PathOrDefault p }

/-- `BSNProjectInfoOption` (src/types/config.go): field-by-field copy of the
caller's record, with no defaulting and no validation. -/
def BSNProjectInfoOption (info : BSNProjectInfo) (cfg : ClientConfig) : Except GoError ClientConfig :=
  Except.ok { cfg with BSNProject := { ProjectId := info.ProjectId, ProjectKey := info.ProjectKey, ChainAccountAddress := info.ChainAccountAddress } }

/-- `checkAndSetDefault` (src/types/config.go): the two required-field checks
(Go compares the string length with zero, equivalently the string with the empty
string) followed by the fixed-order defaulting pass that re-invokes every
field's own option against its current value.  Go mutates the receiver and
returns only an error; the model returns the updated record. -/
def checkAndSetDefault (cfg : ClientConfig) : Except GoError ClientConfig :=
  if cfg.NodeURI = "" then Except.error "nodeURI is required"
  else if cfg.ChainID = "" then Except.error "chainID is required"
  else do
    let cfg ← GasOption cfg.Gas cfg
    let cfg ← FeeOption cfg.Fee cfg
    let cfg ← AlgoOption cfg.Algo cfg
    let cfg ← KeyDAOOption cfg.KeyDAO cfg
    let cfg ← ModeOption cfg.Mode cfg
    let cfg ← TimeoutOption cfg.Timeout cfg
    let cfg ← LevelOption cfg.Level cfg
    let cfg ← MaxTxBytesOption cfg.MaxTxBytes cfg
    let cfg ← TokenManagerOption cfg.TokenManager cfg
    let cfg ← TxSizeLimitOption cfg.TxSizeLimit cfg
    let cfg ← Bech32AddressPrefixOption cfg.Bech32AddressPrefixes cfg
    let cfg ← BIP44PathOption cfg.BIP44Path cfg
    let cfg ← BSNProjectInfoOption cfg.BSNProject cfg
    GasAdjustmentOption cfg.GasAdjustment cfg

/-- The option list of `NewClientConfig`, embedded syntactically: one
constructor per option constructor of src/types/config.go, so that quantifying
over option lists ranges exactly over the options the source offers. -/
inductive ConfigOption where
  | feeOption (fee : DecCoins)
  | keyDAOOption (dao : Option KeyDAO)
  | gasOption (gas : ℕ)
  | algoOption (algo : String)
  | modeOption (mode : BroadcastMode)
  | timeoutOption (t : ℕ)
  | levelOption (level : String)
  | maxTxBytesOption (m : ℕ)
  | gasAdjustmentOption (g : GoFloat)
  | cachedOption (b : Bool)
  | tokenManagerOption (tm : Option TokenManager)
  | txSizeLimitOption (s : ℕ)
  | keyManagerOption (km : Option KeyManager)
  | bech32AddressPrefixOption (p : AddrPrefixCfg)
  | bip44PathOption (p : String)
  | bsnProjectInfoOption (info : BSNProjectInfo)
deriving DecidableEq, Repr

/-- Dispatch of a syntactic option to its option function. -/
def applyOpt : ConfigOption → ClientConfig → Except GoError ClientConfig
  | ConfigOption.feeOption fee => FeeOption fee
  | ConfigOption.keyDAOOption dao => KeyDAOOption dao
  | ConfigOption.gasOption gas => GasOption gas
  | ConfigOption.algoOption algo => AlgoOption algo
  | ConfigOption.modeOption mode => ModeOption mode
  | ConfigOption.timeoutOption t => TimeoutOption t
  | ConfigOption.levelOption level => LevelOption level
  | ConfigOption.maxTxBytesOption m => MaxTxBytesOption m
  | ConfigOption.gasAdjustmentOption g => GasAdjustmentOption g
  | ConfigOption.cachedOption b => CachedOption b
  | ConfigOption.tokenManagerOption tm => TokenManagerOption tm
  | ConfigOption.txSizeLimitOption s => TxSizeLimitOption s
  | ConfigOption.keyManagerOption km => KeyManagerOption km
  | ConfigOption.bech32AddressPrefixOption p => Bech32AddressPrefixOption p
  | ConfigOption.bip44PathOption p => BIP44PathOption p
  | ConfigOption.bsnProjectInfoOption info => BSNProjectInfoOption info

/-- The option-application loop of `NewClientConfig` (src/types/config.go):
options are applied in order and the first error aborts. -/
def applyOpts : List ConfigOption → ClientConfig → Except GoError ClientConfig
  | [], cfg => Except.ok cfg
  | o :: rest, cfg =>
    match applyOpt o cfg with
    | Except.error e => Except.error e
    | Except.ok cfg => applyOpts rest cfg

/-- `NewClientConfig` (src/types/config.go): seed the three required fields,
apply the options in order, then run `checkAndSetDefault`; on any error the Go
function returns the zero `ClientConfig` paired with the error. -/
def NewClientConfig (uri grpcAddr chainID : String) (options : List ConfigOption) :
    ClientConfig × Option GoError :=
  let cfg := { zeroClientConfig with NodeURI := uri, ChainID := chainID, GRPCAddr := grpcAddr }
  match applyOpts options cfg with
  | Except.error e => (zeroClientConfig, some e)
  | Except.ok cfg =>
    match checkAndSetDefault cfg with
    | Except.error e => (zeroClientConfig, some e)
    | Except.ok cfg => (cfg, none)

/-- The combined effect of the defaulting pass of `checkAndSetDefault` as one
pointwise record function; each option of the pass reads and writes only its
own field, so the chain is equal to this flat normalization. -/
def normalizeCfg (cfg : ClientConfig) : ClientConfig :=
  { NodeURI := cfg.NodeURI, GRPCAddr := cfg.GRPCAddr, ChainID := cfg.ChainID,
    Gas := gasOrDefault cfg.Gas,
    Fee := feeOrDefault cfg.Fee,
    KeyDAO := some (daoOrDefault cfg.KeyDAO),
    Algo := algoOrDefault cfg.Algo,
    Mode := modeOrDefault cfg.Mode,
    Timeout := timeoutOrDefault cfg.Timeout,
    Level := levelOrDefault cfg.Level,
    MaxTxBytes := maxTxBytesOrDefault cfg.MaxTxBytes,
    GasAdjustment := gasAdjustmentOrDefault cfg.GasAdjustment,
    Cached := cfg.Cached,
    TokenManager := some (tokenManagerOrDefault cfg.TokenManager),
    KeyManager := cfg.KeyManager,
    TxSizeLimit := txSizeLimitOrDefault cfg.TxSizeLimit,
    Bech32AddressPrefixes := addrPrefixOrDefault cfg.Bech32AddressPrefixes,
    BIP44Path := bip44PathOrDefault cfg.BIP44Path,
    BSNProject := { ProjectId := cfg.BSNProject.ProjectId, ProjectKey := cfg.BSNProject.ProjectKey, ChainAccountAddress := cfg.BSNProject.ChainAccountAddress } }

/-- The MissingRequiredField class of the spec error taxonomy: the two messages
`checkAndSetDefault` produces for the required fields. -/
def isMissingRequiredField (e : GoError) : Bool :=
  e == "nodeURI is required" || e == "chainID is required"

/-- The conjunction of the validity predicates the spec asserts for every
defaulted field of a successfully built `ClientConfig`; the GasAdjustment
conjunct is positivity under Go's ordered comparison. -/
def ConfigValid (cfg : ClientConfig) : Prop :=
  0 < cfg.Gas ∧ 0 < cfg.Timeout ∧ 0 < cfg.MaxTxBytes ∧ 0 < cfg.TxSizeLimit ∧
  GoFloat.lt (GoFloat.finite 0) cfg.GasAdjustment = true ∧
  cfg.Fee ≠ [] ∧ DecCoins.IsValid cfg.Fee = true ∧
  cfg.Algo ≠ "" ∧ cfg.Mode ≠ "" ∧ cfg.Level ≠ "" ∧ cfg.BIP44Path ≠ "" ∧
  cfg.KeyDAO.isSome = true ∧ cfg.TokenManager.isSome = true ∧
  cfg.Bech32AddressPrefixes.AccountAddr ≠ "" ∧ cfg.Bech32AddressPrefixes.AccountPub ≠ "" ∧
  cfg.Bech32AddressPrefixes.ValidatorAddr ≠ "" ∧ cfg.Bech32AddressPrefixes.ValidatorPub ≠ "" ∧
  cfg.Bech32AddressPrefixes.ConsensusAddr ≠ "" ∧ cfg.Bech32AddressPrefixes.ConsensusPub ≠ ""

/-- `ConfigValid` with the single GasAdjustment conjunct weakened to what the
float guard of `GasAdjustmentOption` actually establishes: the built value is
never less-or-equal zero under Go's ordered comparison — it is positive or NaN,
since a NaN evaluates both the guard and positivity to false. -/
def ConfigValidAmended (cfg : ClientConfig) : Prop :=
  0 < cfg.Gas ∧ 0 < cfg.Timeout ∧ 0 < cfg.MaxTxBytes ∧ 0 < cfg.TxSizeLimit ∧
  GoFloat.le cfg.GasAdjustment (GoFloat.finite 0) = false ∧
  cfg.Fee ≠ [] ∧ DecCoins.IsValid cfg.Fee = true ∧
  cfg.Algo ≠ "" ∧ cfg.Mode ≠ "" ∧ cfg.Level ≠ "" ∧ cfg.BIP44Path ≠ "" ∧
  cfg.KeyDAO.isSome = true ∧ cfg.TokenManager.isSome = true ∧
  cfg.Bech32AddressPrefixes.AccountAddr ≠ "" ∧ cfg.Bech32AddressPrefixes.AccountPub ≠ "" ∧
  cfg.Bech32AddressPrefixes.ValidatorAddr ≠ "" ∧ cfg.Bech32AddressPrefixes.ValidatorPub ≠ "" ∧
  cfg.Bech32AddressPrefixes.ConsensusAddr ≠ "" ∧ cfg.Bech32AddressPrefixes.ConsensusPub ≠ ""

/-- The per-RPC credential token (src/client/grpc_client.go). -/
structure Token where
  projectId : String
  projectKey : String
  chainAccountAddr : String
deriving DecidableEq, Repr

/-- Fixed metadata header name (src/client/grpc_client.go). -/
def projectIdHeader : String := "projectId"

/-- Fixed metadata header name (src/client/grpc_client.go). -/
def projectKeyHeader : String := "projectKey"

/-- Fixed metadata header name (src/client/grpc_client.go). -/
def chainAccountAddressHeader : String := "chainAccountAddress"

/-- `Token.GetRequestMetadata` (src/client/grpc_client.go): the metadata map is
modelled as an association list; the context argument is dropped and the
variadic uri argument becomes a list.  The Go method returns the map together
with a nil error. -/
def Token.GetRequestMetadata (t : Token) (_uris : List String) :
    List (String × String) × Option GoError :=
  ([(projectIdHeader, t.projectId), (projectKeyHeader, t.projectKey),
    (chainAccountAddressHeader, t.chainAccountAddr)], none)

/-- `Token.RequireTransportSecurity` (src/client/grpc_client.go). -/
def Token.RequireTransportSecurity (_t : Token) : Bool := true

/-- A dialed gRPC client connection: an identifier produced by the network
environment plus the per-RPC credential token attached through the dial options
(src/client/grpc_client.go). -/
structure ClientConn where
  connId : ℕ
  creds : Token
deriving DecidableEq, Repr

/-- The process-wide mutable state of src/client/grpc_client.go: the connection
singleton, the sync.Once latch, and an instrumentation counter of dial
attempts. -/
structure GrpcState where
  clientConnSingleton : Option ClientConn
  onceUsed : Bool
  dialCount : ℕ
deriving DecidableEq, Repr

/-- The initial process state: no connection, latch unused, no dial attempted. -/
def initGrpcState : GrpcState :=
  { clientConnSingleton := none, onceUsed := false, dialCount := 0 }

/-- `NewGRPCClient` (src/client/grpc_client.go) as a state transformer.  `net`
is the network environment: the outcome `grpc.Dial` would produce for an
endpoint.  Per Go `sync.Once` semantics the latch is consumed even when the
guarded body panics; the panic raised on dial failure is modelled as an error
result, a normal return as an ok result. -/
def NewGRPCClient (net : String → Except GoError ℕ) (url : String) (info : BSNProjectInfo)
    (s : GrpcState) : GrpcState × Except GoError Unit :=
  if s.onceUsed then (s, Except.ok ())
  else
    let token : Token := { projectId := info.ProjectId, projectKey := info.ProjectKey,
                           chainAccountAddr := info.ChainAccountAddress }
    match net url with
    | Except.ok cid =>
      ({ clientConnSingleton := some { connId := cid, creds := token }, onceUsed := true,
         dialCount := s.dialCount + 1 }, Except.ok ())
    | Except.error e =>
      ({ s with onceUsed := true, dialCount := s.dialCount + 1 }, Except.error e)

/-- `grpcClient.GenConn` (src/client/grpc_client.go): returns the current
singleton (possibly nil) and always a nil error. -/
def GenConn (s : GrpcState) : Option ClientConn × Option GoError :=
  (s.clientConnSingleton, none)

/-- A sequence of `NewGRPCClient` invocations, one per caller.  Concurrent
callers are modelled as an arbitrary serialization, justified by the mutual
exclusion `sync.Once` provides around the only state mutation. -/
def runCalls (net : String → Except GoError ℕ) :
    List (String × BSNProjectInfo) → GrpcState → GrpcState
  | [], s => s
  | (url, info) :: rest, s => runCalls net rest (NewGRPCClient net url info s).1

/-- The defaulting pass written as one flat normalization: the two
required-field guards, then `normalizeCfg`. -/
theorem checkAndSetDefault_eq (cfg : ClientConfig) :
    checkAndSetDefault cfg =
      if cfg.NodeURI = "" then Except.error "nodeURI is required"
      else if cfg.ChainID = "" then Except.error "chainID is required"
      else Except.ok (normalizeCfg cfg) := rfl

/-- Every option function succeeds and leaves the two required fields alone. -/
theorem applyOpt_fields (o : ConfigOption) (cfg : ClientConfig) :
    ∃ cfg2, applyOpt o cfg = Except.ok cfg2 ∧
      cfg2.NodeURI = cfg.NodeURI ∧ cfg2.ChainID = cfg.ChainID := by
  cases o <;> exact ⟨_, rfl, rfl, rfl⟩

/-- The option loop succeeds on every option list and leaves the two required
fields alone. -/
theorem applyOpts_preserves (opts : List ConfigOption) (cfg : ClientConfig) :
    ∃ cfg2, applyOpts opts cfg = Except.ok cfg2 ∧
      cfg2.NodeURI = cfg.NodeURI ∧ cfg2.ChainID = cfg.ChainID := by
  induction opts generalizing cfg with
  | nil => exact ⟨cfg, rfl, rfl, rfl⟩
  | cons o rest ih =>
    obtain ⟨c1, h1, h2, h3⟩ := applyOpt_fields o cfg
    obtain ⟨c2, g1, g2, g3⟩ := ih c1
    refine ⟨c2, ?_, by rw [g2, h2], by rw [g3, h3]⟩
    simp [applyOpts, h1, g1]

/-- A successful option phase with non-empty required fields makes the build
return the normalized config and no error. -/
theorem build_result (uri grpcAddr chainID : String) (opts : List ConfigOption)
    (cfgA : ClientConfig)
    (hok : applyOpts opts { zeroClientConfig with NodeURI := uri, ChainID := chainID, GRPCAddr := grpcAddr } = Except.ok cfgA)
    (h1 : cfgA.NodeURI ≠ "") (h2 : cfgA.ChainID ≠ "") :
    NewClientConfig uri grpcAddr chainID opts = (normalizeCfg cfgA, none) := by
  simp only [NewClientConfig]
  rw [hok]
  dsimp only
  rw [checkAndSetDefault_eq, if_neg h1, if_neg h2]

theorem gasOrDefault_pos (g : ℕ) : 0 < gasOrDefault g := by
  unfold gasOrDefault; split
  · decide
  · omega

theorem timeoutOrDefault_pos (t : ℕ) : 0 < timeoutOrDefault t := by
  unfold timeoutOrDefault; split
  · decide
  · omega

theorem maxTxBytesOrDefault_pos (m : ℕ) : 0 < maxTxBytesOrDefault m := by
  unfold maxTxBytesOrDefault; split
  · decide
  · omega

theorem txSizeLimitOrDefault_pos (s : ℕ) : 0 < txSizeLimitOrDefault s := by
  unfold txSizeLimitOrDefault; split
  · decide
  · omega

theorem gasAdjustmentOrDefault_not_nonpos (g : GoFloat) :
    GoFloat.le (gasAdjustmentOrDefault g) (GoFloat.finite 0) = false := by
  unfold gasAdjustmentOrDefault; split
  · decide
  · next h =>
    cases hb : GoFloat.le g (GoFloat.finite 0)
    · rfl
    · exact absurd hb h

theorem feeOrDefault_ok (fee : DecCoins) :
    feeOrDefault fee ≠ [] ∧ DecCoins.IsValid (feeOrDefault fee) = true := by
  unfold feeOrDefault; split
  · exact ⟨by decide, by decide⟩
  · next h =>
    push_neg at h
    refine ⟨h.1, ?_⟩
    cases hb : DecCoins.IsValid fee
    · exact absurd hb h.2
    · rfl

theorem algoOrDefault_ne (a : String) : algoOrDefault a ≠ "" := by
  unfold algoOrDefault; split
  · decide
  · assumption

theorem modeOrDefault_ne (m : BroadcastMode) : modeOrDefault m ≠ "" := by
  unfold modeOrDefault; split
  · decide
  · assumption

theorem levelOrDefault_ne (l : String) : levelOrDefault l ≠ "" := by
  unfold levelOrDefault; split
  · decide
  · assumption

theorem bip44PathOrDefault_ne (p : String) : bip44PathOrDefault p ≠ "" := by
  unfold bip44PathOrDefault; split
  · decide
  · assumption

theorem addrPrefixOrDefault_complete (p : AddrPrefixCfg) :
    (addrPrefixOrDefault p).AccountAddr ≠ "" ∧ (addrPrefixOrDefault p).AccountPub ≠ "" ∧
    (addrPrefixOrDefault p).ValidatorAddr ≠ "" ∧ (addrPrefixOrDefault p).ValidatorPub ≠ "" ∧
    (addrPrefixOrDefault p).ConsensusAddr ≠ "" ∧ (addrPrefixOrDefault p).ConsensusPub ≠ "" := by
  simp only [addrPrefixOrDefault]
  by_cases h1 : p.AccountAddr = "" ∨ p.ValidatorAddr = "" ∨ p.ConsensusAddr = ""
  · simp only [if_pos h1]
    by_cases h2 : PrefixCfg.AccountPub = "" ∨ PrefixCfg.ValidatorPub = "" ∨ PrefixCfg.ConsensusPub = ""
    · exact absurd h2 (by decide)
    · simp only [if_neg h2]; decide
  · simp only [if_neg h1]
    by_cases h2 : p.AccountPub = "" ∨ p.ValidatorPub = "" ∨ p.ConsensusPub = ""
    · simp only [if_pos h2]; decide
    · simp only [if_neg h2]
      push_neg at h1 h2
      exact ⟨h1.1, h2.1, h1.2.1, h2.2.1, h1.2.2, h2.2.2⟩

theorem normalizeCfg_valid (cfg : ClientConfig) : ConfigValidAmended (normalizeCfg cfg) := by
  obtain ⟨f1, f2⟩ := feeOrDefault_ok cfg.Fee
  obtain ⟨b1, b2, b3, b4, b5, b6⟩ := addrPrefixOrDefault_complete cfg.Bech32AddressPrefixes
  exact ⟨gasOrDefault_pos cfg.Gas, timeoutOrDefault_pos cfg.Timeout,
    maxTxBytesOrDefault_pos cfg.MaxTxBytes, txSizeLimitOrDefault_pos cfg.TxSizeLimit,
    gasAdjustmentOrDefault_not_nonpos cfg.GasAdjustment, f1, f2,
    algoOrDefault_ne cfg.Algo, modeOrDefault_ne cfg.Mode, levelOrDefault_ne cfg.Level,
    bip44PathOrDefault_ne cfg.BIP44Path, rfl, rfl, b1, b2, b3, b4, b5, b6⟩

/-- C1: building with an empty node endpoint fails for every grpc address,
chain id and option list, and building with an empty chain id fails for every
endpoint, grpc address and option list; in both cases the error is a
MissingRequiredField error and the returned config is the zero value, carrying
no caller-supplied data. -/
theorem C1_missing_required_field (uri grpcAddr chainID : String) (opts : List ConfigOption) :
    (∃ e, NewClientConfig "" grpcAddr chainID opts = (zeroClientConfig, some e) ∧
      isMissingRequiredField e = true) ∧
    (∃ e, NewClientConfig uri grpcAddr "" opts = (zeroClientConfig, some e) ∧
      isMissingRequiredField e = true) := by
  constructor
  · obtain ⟨cfgA, hok, h2, h3⟩ := applyOpts_preserves opts
      { zeroClientConfig with NodeURI := "", ChainID := chainID, GRPCAddr := grpcAddr }
    refine ⟨"nodeURI is required", ?_, by decide⟩
    simp only [NewClientConfig]
    rw [hok]
    dsimp only
    rw [checkAndSetDefault_eq, if_pos (show cfgA.NodeURI = "" from h2)]
  · obtain ⟨cfgA, hok, h2, h3⟩ := applyOpts_preserves opts
      { zeroClientConfig with NodeURI := uri, ChainID := "", GRPCAddr := grpcAddr }
    by_cases huri : uri = ""
    · refine ⟨"nodeURI is required", ?_, by decide⟩
      simp only [NewClientConfig]
      rw [hok]
      dsimp only
      rw [checkAndSetDefault_eq, if_pos (show cfgA.NodeURI = "" from by rw [h2]; exact huri)]
    · refine ⟨"chainID is required", ?_, by decide⟩
      simp only [NewClientConfig]
      rw [hok]
      dsimp only
      rw [checkAndSetDefault_eq, if_neg (show ¬cfgA.NodeURI = "" from by rw [h2]; exact huri),
        if_pos (show cfgA.ChainID = "" from h3)]

/-- C2, counterexample to the claim as stated: with the single option
GasAdjustmentOption(NaN) and non-empty endpoint and chain id the build
succeeds, yet the returned config carries a NaN GasAdjustment — Go evaluates
the guard NaN less-or-equal zero to false, so the NaN survives the defaulting
pass — and NaN is not positive, so the defaulted-field validity conjunction of
the claim fails. -/
theorem C2_gas_adjustment_nan_counterexample :
    (NewClientConfig "node" "grpc" "chain" [ConfigOption.gasAdjustmentOption GoFloat.nan]).2 = none ∧
    (NewClientConfig "node" "grpc" "chain" [ConfigOption.gasAdjustmentOption GoFloat.nan]).1.GasAdjustment = GoFloat.nan ∧
    ¬ ConfigValid (NewClientConfig "node" "grpc" "chain" [ConfigOption.gasAdjustmentOption GoFloat.nan]).1 := by
  refine ⟨by decide, by decide, ?_⟩
  unfold ConfigValid
  decide

/-- C2, amended as the NaN counterexample forces: for every option list and
non-empty endpoint and chain id, the build succeeds and every defaulted field
of the returned config satisfies its validity predicate, with the GasAdjustment
clause weakened to what the Go float guard establishes — the built value is
never less-or-equal zero under Go's ordered comparison, that is, positive or
NaN.  Every other clause is unchanged: Gas, Timeout, MaxTxBytes and TxSizeLimit
positive, Fee non-empty and valid, Algo, Mode, Level and BIP44Path non-empty,
KeyDAO and TokenManager non-nil, and all six bech32 prefix fields non-empty. -/
theorem C2_defaulted_fields_valid (uri grpcAddr chainID : String) (opts : List ConfigOption)
    (h1 : uri ≠ "") (h2 : chainID ≠ "") :
    (NewClientConfig uri grpcAddr chainID opts).2 = none ∧
    ConfigValidAmended (NewClientConfig uri grpcAddr chainID opts).1 := by
  obtain ⟨cfgA, hok, e2, e3⟩ := applyOpts_preserves opts
    { zeroClientConfig with NodeURI := uri, ChainID := chainID, GRPCAddr := grpcAddr }
  have hb := build_result uri grpcAddr chainID opts cfgA hok
    (by rw [e2]; exact h1) (by rw [e3]; exact h2)
  rw [hb]
  exact ⟨rfl, normalizeCfg_valid cfgA⟩

/-- Witness for C2 at a concrete input. -/
theorem C2_defaulted_fields_valid_witness :
    (("node" : String) ≠ "" ∧ ("chain" : String) ≠ "") ∧
    ((NewClientConfig "node" "grpc" "chain" []).2 = none ∧
     ConfigValidAmended (NewClientConfig "node" "grpc" "chain" []).1) :=
  ⟨⟨by decide, by decide⟩,
    C2_defaulted_fields_valid "node" "grpc" "chain" [] (by decide) (by decide)⟩

/-- C3: a prefix record with a complete address triple but at least one empty
pubkey field is wholesale replaced: a successful build carries exactly the
built-in default six-field record, never a hybrid. -/
theorem C3_addr_prefixes_wholesale (p : AddrPrefixCfg) (uri grpcAddr chainID : String)
    (h1 : uri ≠ "") (h2 : chainID ≠ "")
    (ha : p.AccountAddr ≠ "") (hv : p.ValidatorAddr ≠ "") (hc : p.ConsensusAddr ≠ "")
    (hp : p.AccountPub = "" ∨ p.ValidatorPub = "" ∨ p.ConsensusPub = "") :
    ∃ cfg, NewClientConfig uri grpcAddr chainID [ConfigOption.bech32AddressPrefixOption p] = (cfg, none) ∧
      cfg.Bech32AddressPrefixes = PrefixCfg := by
  have hd : addrPrefixOrDefault p = PrefixCfg := by
    have hn1 : ¬(p.AccountAddr = "" ∨ p.ValidatorAddr = "" ∨ p.ConsensusAddr = "") := by
      push_neg; exact ⟨ha, hv, hc⟩
    simp only [addrPrefixOrDefault]
    rw [if_neg hn1, if_pos hp]
  have hok : applyOpts [ConfigOption.bech32AddressPrefixOption p]
      { zeroClientConfig with NodeURI := uri, ChainID := chainID, GRPCAddr := grpcAddr } =
      Except.ok { { zeroClientConfig with NodeURI := uri, ChainID := chainID, GRPCAddr := grpcAddr } with Bech32AddressPrefixes := addrPrefixOrDefault p } := rfl
  have hb := build_result uri grpcAddr chainID _ _ hok h1 h2
  refine ⟨_, hb, ?_⟩
  show addrPrefixOrDefault (addrPrefixOrDefault p) = PrefixCfg
  rw [hd]
  decide

/-- Witness for C3 at a concrete input. -/
theorem C3_addr_prefixes_wholesale_witness :
    (("node" : String) ≠ "" ∧ ("chain" : String) ≠ "" ∧
     ("aaa" : String) ≠ "" ∧ ("vvv" : String) ≠ "" ∧ ("ccc" : String) ≠ "" ∧
     (("" : String) = "" ∨ ("vvp" : String) = "" ∨ ("ccp" : String) = "")) ∧
    (∃ cfg, NewClientConfig "node" "grpc" "chain"
        [ConfigOption.bech32AddressPrefixOption { AccountAddr := "aaa", AccountPub := "", ValidatorAddr := "vvv", ValidatorPub := "vvp", ConsensusAddr := "ccc", ConsensusPub := "ccp" }] = (cfg, none) ∧
      cfg.Bech32AddressPrefixes = PrefixCfg) :=
  ⟨⟨by decide, by decide, by decide, by decide, by decide, by decide⟩,
    C3_addr_prefixes_wholesale
      { AccountAddr := "aaa", AccountPub := "", ValidatorAddr := "vvv", ValidatorPub := "vvp", ConsensusAddr := "ccc", ConsensusPub := "ccp" }
      "node" "grpc" "chain" (by decide) (by decide) (by decide) (by decide) (by decide) (by decide)⟩

/-- C4: a nil, empty or semantically invalid fee is wholesale replaced by the
parsed default fee amount in the built config, while a valid non-empty fee
passes through unchanged. -/
theorem C4_fee_wholesale (fee : DecCoins) (uri grpcAddr chainID : String)
    (h1 : uri ≠ "") (h2 : chainID ≠ "") :
    ∃ cfg, NewClientConfig uri grpcAddr chainID [ConfigOption.feeOption fee] = (cfg, none) ∧
      cfg.Fee = (if fee = [] ∨ DecCoins.IsValid fee = false then ParseDecCoins defaultFees else fee) := by
  have hok : applyOpts [ConfigOption.feeOption fee]
      { zeroClientConfig with NodeURI := uri, ChainID := chainID, GRPCAddr := grpcAddr } =
      Except.ok { { zeroClientConfig with NodeURI := uri, ChainID := chainID, GRPCAddr := grpcAddr } with Fee := feeOrDefault fee } := rfl
  have hb := build_result uri grpcAddr chainID _ _ hok h1 h2
  refine ⟨_, hb, ?_⟩
  show feeOrDefault (feeOrDefault fee) = _
  by_cases hcond : fee = [] ∨ DecCoins.IsValid fee = false
  · rw [if_pos hcond]
    have hrep : feeOrDefault fee = ParseDecCoins defaultFees := by
      unfold feeOrDefault; rw [if_pos hcond]
    rw [hrep]
    decide
  · rw [if_neg hcond]
    have hkeep : feeOrDefault fee = fee := by
      unfold feeOrDefault; rw [if_neg hcond]
    rw [hkeep]
    exact hkeep

/-- Witness for C4 at a concrete invalid input (a coin with zero amount). -/
theorem C4_fee_wholesale_witness :
    (("node" : String) ≠ "" ∧ ("chain" : String) ≠ "") ∧
    (∃ cfg, NewClientConfig "node" "grpc" "chain"
        [ConfigOption.feeOption [{ denom := "iris", amount := 0 }]] = (cfg, none) ∧
      cfg.Fee = (if [({ denom := "iris", amount := 0 } : DecCoin)] = [] ∨ DecCoins.IsValid [{ denom := "iris", amount := 0 }] = false then ParseDecCoins defaultFees else [{ denom := "iris", amount := 0 }])) :=
  ⟨⟨by decide, by decide⟩,
    C4_fee_wholesale [{ denom := "iris", amount := 0 }] "node" "grpc" "chain" (by decide) (by decide)⟩

/-- C5: for every optional field, explicitly passing the field's
zero/empty/structurally-falsy value produces exactly the same config as passing
no option for that field: both are driven to the built-in default by the
defaulting pass. -/
theorem C5_zero_option_eq_unset (uri grpcAddr chainID : String) :
    NewClientConfig uri grpcAddr chainID [ConfigOption.gasOption 0] = NewClientConfig uri grpcAddr chainID [] ∧
    NewClientConfig uri grpcAddr chainID [ConfigOption.feeOption []] = NewClientConfig uri grpcAddr chainID [] ∧
    NewClientConfig uri grpcAddr chainID [ConfigOption.algoOption ""] = NewClientConfig uri grpcAddr chainID [] ∧
    NewClientConfig uri grpcAddr chainID [ConfigOption.keyDAOOption none] = NewClientConfig uri grpcAddr chainID [] ∧
    NewClientConfig uri grpcAddr chainID [ConfigOption.modeOption ""] = NewClientConfig uri grpcAddr chainID [] ∧
    NewClientConfig uri grpcAddr chainID [ConfigOption.timeoutOption 0] = NewClientConfig uri grpcAddr chainID [] ∧
    NewClientConfig uri grpcAddr chainID [ConfigOption.levelOption ""] = NewClientConfig uri grpcAddr chainID [] ∧
    NewClientConfig uri grpcAddr chainID [ConfigOption.maxTxBytesOption 0] = NewClientConfig uri grpcAddr chainID [] ∧
    NewClientConfig uri grpcAddr chainID [ConfigOption.gasAdjustmentOption (GoFloat.finite 0)] = NewClientConfig uri grpcAddr chainID [] ∧
    NewClientConfig uri grpcAddr chainID [ConfigOption.cachedOption false] = NewClientConfig uri grpcAddr chainID [] ∧
    NewClientConfig uri grpcAddr chainID [ConfigOption.tokenManagerOption none] = NewClientConfig uri grpcAddr chainID [] ∧
    NewClientConfig uri grpcAddr chainID [ConfigOption.txSizeLimitOption 0] = NewClientConfig uri grpcAddr chainID [] ∧
    NewClientConfig uri grpcAddr chainID [ConfigOption.keyManagerOption none] = NewClientConfig uri grpcAddr chainID [] ∧
    NewClientConfig uri grpcAddr chainID [ConfigOption.bech32AddressPrefixOption { AccountAddr := "", AccountPub := "", ValidatorAddr := "", ValidatorPub := "", ConsensusAddr := "", ConsensusPub := "" }] = NewClientConfig uri grpcAddr chainID [] ∧
    NewClientConfig uri grpcAddr chainID [ConfigOption.bip44PathOption ""] = NewClientConfig uri grpcAddr chainID [] ∧
    NewClientConfig uri grpcAddr chainID [ConfigOption.bsnProjectInfoOption { ProjectId := "", ProjectKey := "", ChainAccountAddress := "" }] = NewClientConfig uri grpcAddr chainID [] :=
  ⟨rfl, rfl, rfl, rfl, rfl, rfl, rfl, rfl, rfl, rfl, rfl, rfl, rfl, rfl, rfl, rfl⟩

/-- C6: the caller's project identity record, empty fields included, is copied
field-by-field into the built config, never defaulted and never validated, and
never causes construction failure. -/
theorem C6_bsn_project_copied (info : BSNProjectInfo) (uri grpcAddr chainID : String)
    (h1 : uri ≠ "") (h2 : chainID ≠ "") :
    ∃ cfg, NewClientConfig uri grpcAddr chainID [ConfigOption.bsnProjectInfoOption info] = (cfg, none) ∧
      cfg.BSNProject = info := by
  have hok : applyOpts [ConfigOption.bsnProjectInfoOption info]
      { zeroClientConfig with NodeURI := uri, ChainID := chainID, GRPCAddr := grpcAddr } =
      Except.ok { { zeroClientConfig with NodeURI := uri, ChainID := chainID, GRPCAddr := grpcAddr } with BSNProject := { ProjectId := info.ProjectId, ProjectKey := info.ProjectKey, ChainAccountAddress := info.ChainAccountAddress } } := rfl
  have hb := build_result uri grpcAddr chainID _ _ hok h1 h2
  exact ⟨_, hb, rfl⟩

/-- Witness for C6 at a concrete input whose identity fields are all empty. -/
theorem C6_bsn_project_copied_witness :
    (("node" : String) ≠ "" ∧ ("chain" : String) ≠ "") ∧
    (∃ cfg, NewClientConfig "node" "grpc" "chain"
        [ConfigOption.bsnProjectInfoOption { ProjectId := "", ProjectKey := "", ChainAccountAddress := "" }] = (cfg, none) ∧
      cfg.BSNProject = { ProjectId := "", ProjectKey := "", ChainAccountAddress := "" }) :=
  ⟨⟨by decide, by decide⟩,
    C6_bsn_project_copied { ProjectId := "", ProjectKey := "", ChainAccountAddress := "" }
      "node" "grpc" "chain" (by decide) (by decide)⟩

/-- On an unused latch and a successful dial, the bootstrap installs the
connection, consumes the latch and counts one dial attempt. -/
theorem newGRPCClient_first_ok (net : String → Except GoError ℕ) (url : String)
    (info : BSNProjectInfo) (cid : ℕ) (h : net url = Except.ok cid)
    (s : GrpcState) (hs : s.onceUsed = false) :
    NewGRPCClient net url info s =
      ({ clientConnSingleton := some { connId := cid, creds := { projectId := info.ProjectId, projectKey := info.ProjectKey, chainAccountAddr := info.ChainAccountAddress } }, onceUsed := true, dialCount := s.dialCount + 1 }, Except.ok ()) := by
  unfold NewGRPCClient
  rw [hs, h]
  simp

/-- On an unused latch and a failing dial, the bootstrap surfaces the dial
error, consumes the latch, counts one dial attempt and installs nothing. -/
theorem newGRPCClient_first_err (net : String → Except GoError ℕ) (url : String)
    (info : BSNProjectInfo) (e : GoError) (h : net url = Except.error e)
    (s : GrpcState) (hs : s.onceUsed = false) :
    NewGRPCClient net url info s =
      ({ s with onceUsed := true, dialCount := s.dialCount + 1 }, Except.error e) := by
  unfold NewGRPCClient
  rw [hs, h]
  simp

/-- Once the latch is consumed, a bootstrap call returns without touching the
state, whatever endpoint and identity it passes. -/
theorem newGRPCClient_used (net : String → Except GoError ℕ) (url : String)
    (info : BSNProjectInfo) (s : GrpcState) (hs : s.onceUsed = true) :
    NewGRPCClient net url info s = (s, Except.ok ()) := by
  unfold NewGRPCClient
  rw [hs]
  simp

/-- Once the latch is consumed, any sequence of bootstrap calls leaves the
state unchanged. -/
theorem runCalls_used (net : String → Except GoError ℕ)
    (calls : List (String × BSNProjectInfo)) (s : GrpcState) (hs : s.onceUsed = true) :
    runCalls net calls s = s := by
  induction calls generalizing s with
  | nil => rfl
  | cons c rest ih =>
    obtain ⟨url, info⟩ := c
    rw [runCalls, newGRPCClient_used net url info s hs]
    exact ih s hs

/-- C7: after the first successful connection creation, the credential provider
attached to the singleton returns exactly the three identity fields supplied at
first creation under their fixed header names, paired with a nil error, and the
mapping is unchanged by any number of later bootstrap calls whatever identity
records they pass. -/
theorem C7_credentials_fixed (net : String → Except GoError ℕ) (url : String)
    (info : BSNProjectInfo) (cid : ℕ) (h : net url = Except.ok cid)
    (later : List (String × BSNProjectInfo)) :
    ((runCalls net later (NewGRPCClient net url info initGrpcState).1).clientConnSingleton.map
        fun c => Token.GetRequestMetadata c.creds []) =
      some ([(projectIdHeader, info.ProjectId), (projectKeyHeader, info.ProjectKey),
        (chainAccountAddressHeader, info.ChainAccountAddress)], none) := by
  rw [newGRPCClient_first_ok net url info cid h initGrpcState rfl]
  rw [runCalls_used net later _ rfl]
  rfl

/-- Witness for C7: a first creation with one identity followed by a later call
with a different identity. -/
theorem C7_credentials_fixed_witness :
    ((fun _ => Except.ok 7 : String → Except GoError ℕ) "u" = Except.ok 7) ∧
    ((runCalls (fun _ => Except.ok 7)
        [("u2", { ProjectId := "x", ProjectKey := "y", ChainAccountAddress := "z" })]
        (NewGRPCClient (fun _ => Except.ok 7) "u"
          { ProjectId := "pid", ProjectKey := "pkey", ChainAccountAddress := "addr" }
          initGrpcState).1).clientConnSingleton.map
        fun c => Token.GetRequestMetadata c.creds []) =
      some ([(projectIdHeader, "pid"), (projectKeyHeader, "pkey"),
        (chainAccountAddressHeader, "addr")], none) :=
  ⟨rfl, C7_credentials_fixed (fun _ => Except.ok 7) "u"
    { ProjectId := "pid", ProjectKey := "pkey", ChainAccountAddress := "addr" } 7 rfl
    [("u2", { ProjectId := "x", ProjectKey := "y", ChainAccountAddress := "z" })]⟩

/-- C8: any number of callers invoking the bootstrap with the same endpoint
(modelled as an arbitrary serialization of the calls, justified by sync.Once
mutual exclusion) produce exactly one dial attempt, and the shared connection
every caller subsequently obtains through GenConn is the one identical handle
created by the first call. -/
theorem C8_single_dial (net : String → Except GoError ℕ) (url : String)
    (info : BSNProjectInfo) (others : List BSNProjectInfo) (cid : ℕ)
    (h : net url = Except.ok cid) :
    (runCalls net ((url, info) :: others.map fun i => (url, i)) initGrpcState).dialCount = 1 ∧
    (runCalls net ((url, info) :: others.map fun i => (url, i)) initGrpcState).clientConnSingleton =
      some { connId := cid, creds := { projectId := info.ProjectId, projectKey := info.ProjectKey, chainAccountAddr := info.ChainAccountAddress } } ∧
    GenConn (runCalls net ((url, info) :: others.map fun i => (url, i)) initGrpcState) =
      (some { connId := cid, creds := { projectId := info.ProjectId, projectKey := info.ProjectKey, chainAccountAddr := info.ChainAccountAddress } }, none) := by
  have hrun : runCalls net ((url, info) :: others.map fun i => (url, i)) initGrpcState =
      { clientConnSingleton := some { connId := cid, creds := { projectId := info.ProjectId, projectKey := info.ProjectKey, chainAccountAddr := info.ChainAccountAddress } }, onceUsed := true, dialCount := 1 } := by
    rw [runCalls, newGRPCClient_first_ok net url info cid h initGrpcState rfl]
    exact runCalls_used net _ _ rfl
  rw [hrun]
  exact ⟨rfl, rfl, rfl⟩

/-- Witness for C8: three callers, same endpoint. -/
theorem C8_single_dial_witness :
    ((fun _ => Except.ok 5 : String → Except GoError ℕ) "u" = Except.ok 5) ∧
    ((runCalls (fun _ => Except.ok 5)
        (("u", { ProjectId := "a", ProjectKey := "b", ChainAccountAddress := "c" }) ::
          [({ ProjectId := "d", ProjectKey := "e", ChainAccountAddress := "f" } : BSNProjectInfo),
           { ProjectId := "g", ProjectKey := "h", ChainAccountAddress := "i" }].map fun i => ("u", i))
        initGrpcState).dialCount = 1 ∧
     (runCalls (fun _ => Except.ok 5)
        (("u", { ProjectId := "a", ProjectKey := "b", ChainAccountAddress := "c" }) ::
          [({ ProjectId := "d", ProjectKey := "e", ChainAccountAddress := "f" } : BSNProjectInfo),
           { ProjectId := "g", ProjectKey := "h", ChainAccountAddress := "i" }].map fun i => ("u", i))
        initGrpcState).clientConnSingleton =
       some { connId := 5, creds := { projectId := "a", projectKey := "b", chainAccountAddr := "c" } } ∧
     GenConn (runCalls (fun _ => Except.ok 5)
        (("u", { ProjectId := "a", ProjectKey := "b", ChainAccountAddress := "c" }) ::
          [({ ProjectId := "d", ProjectKey := "e", ChainAccountAddress := "f" } : BSNProjectInfo),
           { ProjectId := "g", ProjectKey := "h", ChainAccountAddress := "i" }].map fun i => ("u", i))
        initGrpcState) =
       (some { connId := 5, creds := { projectId := "a", projectKey := "b", chainAccountAddr := "c" } }, none)) :=
  ⟨rfl, C8_single_dial (fun _ => Except.ok 5) "u"
    { ProjectId := "a", ProjectKey := "b", ChainAccountAddress := "c" }
    [{ ProjectId := "d", ProjectKey := "e", ChainAccountAddress := "f" },
     { ProjectId := "g", ProjectKey := "h", ChainAccountAddress := "i" }] 5 rfl⟩

/-- C9: a failing first dial surfaces its error to the triggering caller at
once, attempts the dial exactly once, installs no connection, and the failed
attempt is not recorded as a reusable result: later calls are left with the
same connection-less state and never redial. -/
theorem C9_dial_failure_surfaced (net : String → Except GoError ℕ) (url : String)
    (info : BSNProjectInfo) (e : GoError) (h : net url = Except.error e) :
    NewGRPCClient net url info initGrpcState =
      ({ clientConnSingleton := none, onceUsed := true, dialCount := 1 }, Except.error e) ∧
    ∀ later : List (String × BSNProjectInfo),
      runCalls net later (NewGRPCClient net url info initGrpcState).1 =
        { clientConnSingleton := none, onceUsed := true, dialCount := 1 } := by
  have h1 := newGRPCClient_first_err net url info e h initGrpcState rfl
  constructor
  · rw [h1]
    rfl
  · intro later
    rw [h1]
    exact runCalls_used net later _ rfl

/-- Witness for C9: a network on which every dial fails. -/
theorem C9_dial_failure_surfaced_witness :
    ((fun _ => Except.error "boom" : String → Except GoError ℕ) "u" = Except.error "boom") ∧
    (NewGRPCClient (fun _ => Except.error "boom") "u"
        { ProjectId := "a", ProjectKey := "b", ChainAccountAddress := "c" } initGrpcState =
      ({ clientConnSingleton := none, onceUsed := true, dialCount := 1 }, Except.error "boom") ∧
     ∀ later : List (String × BSNProjectInfo),
       runCalls (fun _ => Except.error "boom") later
          (NewGRPCClient (fun _ => Except.error "boom") "u"
            { ProjectId := "a", ProjectKey := "b", ChainAccountAddress := "c" } initGrpcState).1 =
         { clientConnSingleton := none, onceUsed := true, dialCount := 1 }) :=
  ⟨rfl, C9_dial_failure_surfaced (fun _ => Except.error "boom") "u"
    { ProjectId := "a", ProjectKey := "b", ChainAccountAddress := "c" } "boom" rfl⟩

/-- C10: GenConn never returns an error: in every process state it returns the
current shared connection pointer, nil included, paired with a nil error; in
particular in the initial state, where no connection was ever established, it
returns a nil connection and a nil error. -/
theorem C10_genconn_no_error (s : GrpcState) :
    GenConn s = (s.clientConnSingleton, none) ∧ GenConn initGrpcState = (none, none) :=
  ⟨rfl, rfl⟩
